import Mathlib

/-!
Verification of the online Holt-Winters temperature forecasting engine
(`forecast/sensor.py` together with its helpers in `forecast/helpers.py` and
the module-level configuration in `forecast/config/parameters.py`).

The embedding is a faithful shallow translation of the Python source:

* floating-point values are modelled by `ℚ`;
* NumPy's `NaN` (mean of an empty array) is modelled by `Option ℚ`, with
  `none` standing for `NaN`;
* the numeric square-root routine (`np.sqrt`, and the square root taken
  inside `np.std`) is an abstract parameter `sq : ℚ → ℚ` threaded through
  the state-transition functions — every claim proved here holds for an
  arbitrary interpretation of `sq`;
* Python negative indexing `l[-k]` is translated by `negIdx l k`;
* the per-sensor mutable object of `sensor.py` becomes the record `Sensor`,
  and each Python method becomes a function `Sensor → Sensor`.
-/

/-- Module-level configuration, `forecast/config/parameters.py`. -/
structure Params where
  alpha : ℚ
  beta : ℚ
  gamma : ℚ
  season_length : ℕ
  n_seasons_init : ℕ
  n_forecast : ℕ
  n_step_ahead : ℕ
  bound_modifier : ℚ
deriving Repr, DecidableEq

/-- The concrete configuration shipped in `parameters.py`. -/
def prm : Params :=
  { alpha := 2/100, beta := 1/100, gamma := 3/4,
    season_length := 110, n_seasons_init := 7,
    n_forecast := 220, n_step_ahead := 110, bound_modifier := 196/100 }

/-- A small configuration of the same shape, used to exercise the engine on
concrete runs (initialization threshold `season_length * n_seasons_init = 4`). -/
def psmall : Params :=
  { alpha := 1/2, beta := 1/2, gamma := 1/2,
    season_length := 2, n_seasons_init := 2,
    n_forecast := 2, n_step_ahead := 1, bound_modifier := 2 }

/-- Per-device engine state: the fields of the `Sensor` object in
`forecast/sensor.py` (`self.model`, `self.local_forecast`, `self.forecast`,
`self.n_samples`, `self.initialised`, `self.residual_std`). -/
structure Sensor where
  /-- Field `self.model['unixtime']`. -/
  unixtime : List ℤ
  /-- Field `self.model['temperature']`. -/
  temperature : List ℚ
  /-- Field `self.model['level']`. -/
  level : List ℚ
  /-- Field `self.model['trend']`. -/
  trend : List ℚ
  /-- Field `self.model['season']`. -/
  season : List ℚ
  /-- Field `self.local_forecast['unixtime']` (`none` models `NaN`). -/
  lf_unixtime : List (Option ℚ)
  /-- Field `self.local_forecast['temperature']`. -/
  lf_temperature : List ℚ
  /-- Field `self.local_forecast['upper_bound']`. -/
  lf_upper : List ℚ
  /-- Field `self.local_forecast['lower_bound']`. -/
  lf_lower : List ℚ
  /-- Field `self.forecast['unixtime']` (`none` models `NaN`). -/
  fc_unixtime : List (Option ℚ)
  /-- Field `self.forecast['temperature']`. -/
  fc_temperature : List ℚ
  /-- Field `self.forecast['residual']`. -/
  fc_residual : List ℚ
  /-- Field `self.n_samples`. -/
  n_samples : ℕ
  /-- Field `self.initialised`. -/
  initialised : Bool
  /-- Field `self.residual_std`. -/
  residual_std : ℚ
deriving Repr, DecidableEq

/-- The freshly constructed per-device state, `Sensor.__init__`. -/
def Sensor.start (p : Params) : Sensor :=
  { unixtime := [], temperature := [], level := [], trend := [], season := [],
    lf_unixtime := List.replicate p.n_forecast (some 0),
    lf_temperature := List.replicate p.n_forecast 0,
    lf_upper := List.replicate p.n_forecast 0,
    lf_lower := List.replicate p.n_forecast 0,
    fc_unixtime := [], fc_temperature := [], fc_residual := [],
    n_samples := 0, initialised := false, residual_std := 0 }

/-- Python negative indexing `l[-k]` (valid for `1 ≤ k ≤ l.length`). -/
def negIdx (l : List ℚ) (k : ℕ) : ℚ := l.getD (l.length - k) 0

/-- Mean (`np.mean`) of a list of rationals. -/
def listMean (l : List ℚ) : ℚ := l.sum / (l.length : ℚ)

/-- Closed-form ordinary least squares, `forecast.helpers.algebraic_linreg`,
returning `(alpha, beta)` = (intercept, slope). -/
def algebraic_linreg (x y : List ℚ) : ℚ × ℚ :=
  let s00 := (x.map (fun _ => (1 : ℚ))).sum
  let s10 := x.sum
  let s01 := y.sum
  let s20 := (x.map (fun v => v ^ 2)).sum
  let s11 := (List.zipWith (· * ·) x y).sum
  let b := (s00 * s11 - s10 * s01) / (s00 * s20 - s10 ^ 2)
  let a := (s01 - b * s10) / s00
  (a, b)

/-- The centered moving average of `sensor.py` lines 95–103: window
`[max(0, i - int(1.5*sl)), min(n, i + int(1.5*sl + 1)))` over the
temperature list (`int(1.5*sl) = 3*sl/2` and `int(1.5*sl+1) = 3*sl/2 + 1`
in natural-number arithmetic). -/
def maSlice (sl n : ℕ) (temps : List ℚ) (i : ℕ) : ℚ :=
  let xl := i - 3 * sl / 2
  let xr := min n (i + 3 * sl / 2 + 1)
  listMean ((temps.drop xl).take (xr - xl))

/-- The detrended residual `df = temperature - ma` of `sensor.py` line 106. -/
def initDf (p : Params) (n : ℕ) (temps : List ℚ) (i : ℕ) : ℚ :=
  temps.getD i 0 - maSlice p.season_length n temps i

/-- The per-phase average seasonal component `avs` of `sensor.py`
lines 109–111. -/
def initAvs (p : Params) (n : ℕ) (temps : List ℚ) : List ℚ :=
  (List.range p.season_length).map
    (fun i => listMean ((List.range p.n_seasons_init).map
      (fun j => initDf p n temps (i + j * p.season_length))))

/-- The cyclic expansion of `avs` over all historical indices
(`sensor.py` lines 114–115). -/
def initSeason (p : Params) (n : ℕ) (temps : List ℚ) : List ℚ :=
  (List.range n).map (fun i => (initAvs p n temps).getD (i % (initAvs p n temps).length) 0)

/-- The regression fit `(a, b)` on the seasonally adjusted series
(`sensor.py` lines 117–122). -/
def initLinreg (p : Params) (n : ℕ) (temps season2 : List ℚ) : ℚ × ℚ :=
  algebraic_linreg ((List.range n).map (fun (i : ℕ) => (i : ℚ)))
    ((List.range n).map (fun i => temps.getD i 0 - season2.getD i 0))

/-- Initialization, `Sensor.initialise_holt_winters` (`sensor.py` lines 87–135). -/
def initialiseHoltWinters (p : Params) (st : Sensor) : Sensor :=
  let n := st.n_samples
  let season2 := st.season ++ initSeason p n st.temperature
  let ab := initLinreg p n st.temperature season2
  { st with
    season := season2,
    level := st.level ++ (List.range n).map (fun (i : ℕ) => ab.1 + (i : ℚ) * ab.2),
    trend := st.trend ++ (List.range n).map (fun _ => ab.2),
    initialised := true }

/-- The level value `l` computed by `Sensor.iterate_holt_winters`
(`sensor.py` line 142). -/
def iterLevelVal (p : Params) (st : Sensor) : ℚ :=
  p.alpha * (negIdx st.temperature 1 - negIdx st.season p.season_length)
    + (1 - p.alpha) * (negIdx st.level 1 + negIdx st.trend 1)

/-- The trend value `b` computed by `Sensor.iterate_holt_winters`
(`sensor.py` line 143); it uses the just-computed level `l`. -/
def iterTrendVal (p : Params) (st : Sensor) : ℚ :=
  p.beta * (iterLevelVal p st - negIdx st.level 1) + (1 - p.beta) * negIdx st.trend 1

/-- The season value `s` computed by `Sensor.iterate_holt_winters`
(`sensor.py` line 144). -/
def iterSeasonVal (p : Params) (st : Sensor) : ℚ :=
  p.gamma * (negIdx st.temperature 1 - negIdx st.level 1 - negIdx st.trend 1)
    + (1 - p.gamma) * negIdx st.season p.season_length

/-- The recurrence step, `Sensor.iterate_holt_winters` (`sensor.py` lines 138–149). -/
def iterateHoltWinters (p : Params) (st : Sensor) : Sensor :=
  { st with
    level := st.level ++ [iterLevelVal p st],
    trend := st.trend ++ [iterTrendVal p st],
    season := st.season ++ [iterSeasonVal p st] }

/-- The most recent sample timestamp, `self.model['unixtime'][-1]`. -/
def lastUx (st : Sensor) : ℤ := st.unixtime.getD (st.unixtime.length - 1) 0

/-- The timestamps in the trailing 24 hours of event time
(`sensor.py` line 159). -/
def tax24 (st : Sensor) : List ℤ :=
  st.unixtime.filter (fun u => lastUx st - 60 * 60 * 24 < u)

/-- The adaptive step length `ux_step = np.mean(tax[1:] - tax[:-1])`
(`sensor.py` line 160); `none` models the `NaN` produced by the mean of an
empty array. -/
def uxStep (st : Sensor) : Option ℚ :=
  let diffs : List ℤ := List.zipWith (fun a b => a - b) ((tax24 st).drop 1) (tax24 st)
  if diffs.length = 0 then none
  else some ((diffs.sum : ℚ) / (diffs.length : ℚ))

/-- Horizon-`t` forecast timestamp (`sensor.py` line 164). -/
def lfTimeFun (st : Sensor) (t : ℕ) : Option ℚ :=
  (uxStep st).map (fun s => (lastUx st : ℚ) + ((t : ℚ) + 1) * s)

/-- Horizon-`t` forecast point value (`sensor.py` line 165); the Python
season index `-season_length + (t-1) % season_length` is the element
`season_length - (t-1) % season_length` from the end, with the non-negative
Python modulus `(t-1) % sl` written `(t + sl - 1) % sl`. -/
def lfTempFun (p : Params) (st : Sensor) (t : ℕ) : ℚ :=
  negIdx st.level 1 + (t : ℚ) * negIdx st.trend 1
    + negIdx st.season (p.season_length - (t + p.season_length - 1) % p.season_length)

/-- The prediction-interval growth factor `k = (t-1)/season_length`
(`sensor.py` line 168), real-valued division. -/
def kFun (p : Params) (t : ℕ) : ℚ := ((t : ℚ) - 1) / (p.season_length : ℚ)

/-- Upper confidence bound (`sensor.py` line 169). -/
def lfUpperFun (sq : ℚ → ℚ) (p : Params) (st : Sensor) (t : ℕ) : ℚ :=
  lfTempFun p st t + st.residual_std * sq (kFun p t + 1) * p.bound_modifier

/-- Lower confidence bound (`sensor.py` line 170). -/
def lfLowerFun (sq : ℚ → ℚ) (p : Params) (st : Sensor) (t : ℕ) : ℚ :=
  lfTempFun p st t - st.residual_std * sq (kFun p t + 1) * p.bound_modifier

/-- Population variance: the mean of the squared deviations from the mean
(what `np.std` takes the square root of). -/
def popVar (l : List ℚ) : ℚ :=
  ((l.map (fun x => (x - listMean l) ^ 2)).sum) / (l.length : ℚ)

/-- Population standard deviation (`np.std`): square root of the mean of the squared deviations
(population standard deviation), with the square root abstracted as `sq`. -/
def npStd (sq : ℚ → ℚ) (l : List ℚ) : ℚ :=
  sq (((l.map (fun x => (x - l.sum / (l.length : ℚ)) ^ 2)).sum) / (l.length : ℚ))

/-- The index of the local-forecast entry recorded into the persistent
forecast history (`sensor.py` lines 173–174). -/
def fcIdx (p : Params) : ℕ := min (p.n_step_ahead - 1) (p.n_forecast - 1)

/-- The forecast timestamp recorded into the history at this step. -/
def fcNewTime (p : Params) (st : Sensor) : Option ℚ :=
  (((List.range p.n_forecast).map (lfTimeFun st))).getD (fcIdx p) none

/-- The forecast point value recorded into the history at this step. -/
def fcNewTemp (p : Params) (st : Sensor) : ℚ :=
  (((List.range p.n_forecast).map (lfTempFun p st))).getD (fcIdx p) 0

/-- The residual recorded at this step (`sensor.py` lines 176–181),
computed against the forecast-temperature history after this step's entry
has been appended. -/
def fcNewRes (p : Params) (st : Sensor) : ℚ :=
  let fcT := st.fc_temperature ++ [fcNewTemp p st]
  if p.n_step_ahead < fcT.length then
    |negIdx st.temperature 1 - fcT.getD (fcT.length - (p.n_step_ahead + 1)) 0|
  else 0

/-- The trailing residual window `residual[max(0, len - n_forecast):]`
(`sensor.py` line 184). -/
def resWindow (p : Params) (l : List ℚ) : List ℚ := l.drop (l.length - p.n_forecast)

/-- The forecasting step, `Sensor.model_forecast` (`sensor.py` lines 152–184). -/
def modelForecast (sq : ℚ → ℚ) (p : Params) (st : Sensor) : Sensor :=
  { st with
    lf_unixtime := (List.range p.n_forecast).map (lfTimeFun st),
    lf_temperature := (List.range p.n_forecast).map (lfTempFun p st),
    lf_upper := (List.range p.n_forecast).map (lfUpperFun sq p st),
    lf_lower := (List.range p.n_forecast).map (lfLowerFun sq p st),
    fc_unixtime := st.fc_unixtime ++ [fcNewTime p st],
    fc_temperature := st.fc_temperature ++ [fcNewTemp p st],
    fc_residual := st.fc_residual ++ [fcNewRes p st],
    residual_std := npStd sq (resWindow p (st.fc_residual ++ [fcNewRes p st])) }

/-- The unconditional part of `Sensor.new_event_data` (`sensor.py`
lines 66–72): append the new timestamp and temperature and bump the
sample counter. -/
def appendSample (st : Sensor) (ux : ℤ) (temp : ℚ) : Sensor :=
  { st with
    unixtime := st.unixtime ++ [ux],
    temperature := st.temperature ++ [temp],
    n_samples := st.n_samples + 1 }

/-- Event intake, `Sensor.new_event_data` (`sensor.py` lines 59–84): append the sample,
then (once the initialization threshold is met) initialize or iterate the
decomposition and produce a forecast. -/
def newEventData (sq : ℚ → ℚ) (p : Params) (st : Sensor) (ux : ℤ) (temp : ℚ) : Sensor :=
  if (appendSample st ux temp).n_samples < p.season_length * p.n_seasons_init then
    appendSample st ux temp
  else if (appendSample st ux temp).initialised then
    modelForecast sq p (iterateHoltWinters p (appendSample st ux temp))
  else
    modelForecast sq p (initialiseHoltWinters p (appendSample st ux temp))

/-- Feed a list of `(unixtime, temperature)` samples to a fresh device state,
in order (`Director` relaying sorted events to one `Sensor`). -/
def runSamples (sq : ℚ → ℚ) (p : Params) (samples : List (ℤ × ℚ)) : Sensor :=
  samples.foldl (fun st s => newEventData sq p st s.1 s.2) (Sensor.start p)

/-- A concrete four-sample input reaching the `psmall` initialization
threshold. -/
def samples4 : List (ℤ × ℚ) := [(0, 20), (10, 21), (20, 20), (30, 22)]

/-- A concrete initialized device state under `psmall`. -/
def stW : Sensor := runSamples id psmall samples4

/-- A concrete initialized device state whose final sample sits more than
24 hours after every earlier sample, so fewer than 2 samples fall in the
trailing 24-hour window. -/
def stG : Sensor := runSamples id psmall [(0, 20), (10, 21), (20, 20), (100000, 22)]

/-- A concrete pre-initialization state holding exactly
`season_length * n_seasons_init` samples of `psmall`, as
`Sensor.new_event_data` sees it right before calling
`Sensor.initialise_holt_winters`. -/
def stPre : Sensor :=
  { Sensor.start psmall with
    unixtime := [0, 10, 20, 30],
    temperature := [20, 21, 20, 22],
    n_samples := 4 }

/-- Structural invariant maintained by the engine across every event:
the sample buffer tracks `n_samples`; the residual history tracks the
forecast history; once initialised the decomposition sequences track the
sample count and the threshold has been met; before initialisation they are
empty; cold-start residuals are zero. -/
def StInv (p : Params) (st : Sensor) : Prop :=
  st.temperature.length = st.n_samples ∧
  st.unixtime.length = st.n_samples ∧
  st.fc_residual.length = st.fc_temperature.length ∧
  (st.initialised = true →
    st.level.length = st.n_samples ∧ st.trend.length = st.n_samples ∧
    st.season.length = st.n_samples ∧ p.season_length * p.n_seasons_init ≤ st.n_samples) ∧
  (st.initialised = false → st.level = [] ∧ st.trend = [] ∧ st.season = []) ∧
  (∀ i, i < p.n_step_ahead → i < st.fc_residual.length → st.fc_residual.getD i 0 = 0)

/-! ## Projection lemmas for the state-transition functions -/

@[simp] lemma modelForecast_level (sq : ℚ → ℚ) (p : Params) (st : Sensor) :
    (modelForecast sq p st).level = st.level := rfl
@[simp] lemma modelForecast_trend (sq : ℚ → ℚ) (p : Params) (st : Sensor) :
    (modelForecast sq p st).trend = st.trend := rfl
@[simp] lemma modelForecast_season (sq : ℚ → ℚ) (p : Params) (st : Sensor) :
    (modelForecast sq p st).season = st.season := rfl
@[simp] lemma modelForecast_temperature (sq : ℚ → ℚ) (p : Params) (st : Sensor) :
    (modelForecast sq p st).temperature = st.temperature := rfl
@[simp] lemma modelForecast_unixtime (sq : ℚ → ℚ) (p : Params) (st : Sensor) :
    (modelForecast sq p st).unixtime = st.unixtime := rfl
@[simp] lemma modelForecast_n_samples (sq : ℚ → ℚ) (p : Params) (st : Sensor) :
    (modelForecast sq p st).n_samples = st.n_samples := rfl
@[simp] lemma modelForecast_initialised (sq : ℚ → ℚ) (p : Params) (st : Sensor) :
    (modelForecast sq p st).initialised = st.initialised := rfl
@[simp] lemma modelForecast_fc_unixtime (sq : ℚ → ℚ) (p : Params) (st : Sensor) :
    (modelForecast sq p st).fc_unixtime = st.fc_unixtime ++ [fcNewTime p st] := rfl
@[simp] lemma modelForecast_fc_temperature (sq : ℚ → ℚ) (p : Params) (st : Sensor) :
    (modelForecast sq p st).fc_temperature = st.fc_temperature ++ [fcNewTemp p st] := rfl
@[simp] lemma modelForecast_fc_residual (sq : ℚ → ℚ) (p : Params) (st : Sensor) :
    (modelForecast sq p st).fc_residual = st.fc_residual ++ [fcNewRes p st] := rfl
@[simp] lemma modelForecast_residual_std (sq : ℚ → ℚ) (p : Params) (st : Sensor) :
    (modelForecast sq p st).residual_std
      = npStd sq (resWindow p (st.fc_residual ++ [fcNewRes p st])) := rfl
@[simp] lemma modelForecast_lf_unixtime (sq : ℚ → ℚ) (p : Params) (st : Sensor) :
    (modelForecast sq p st).lf_unixtime = (List.range p.n_forecast).map (lfTimeFun st) := rfl
@[simp] lemma modelForecast_lf_temperature (sq : ℚ → ℚ) (p : Params) (st : Sensor) :
    (modelForecast sq p st).lf_temperature
      = (List.range p.n_forecast).map (lfTempFun p st) := rfl

@[simp] lemma iterateHoltWinters_level (p : Params) (st : Sensor) :
    (iterateHoltWinters p st).level = st.level ++ [iterLevelVal p st] := rfl
@[simp] lemma iterateHoltWinters_trend (p : Params) (st : Sensor) :
    (iterateHoltWinters p st).trend = st.trend ++ [iterTrendVal p st] := rfl
@[simp] lemma iterateHoltWinters_season (p : Params) (st : Sensor) :
    (iterateHoltWinters p st).season = st.season ++ [iterSeasonVal p st] := rfl
@[simp] lemma iterateHoltWinters_temperature (p : Params) (st : Sensor) :
    (iterateHoltWinters p st).temperature = st.temperature := rfl
@[simp] lemma iterateHoltWinters_unixtime (p : Params) (st : Sensor) :
    (iterateHoltWinters p st).unixtime = st.unixtime := rfl
@[simp] lemma iterateHoltWinters_n_samples (p : Params) (st : Sensor) :
    (iterateHoltWinters p st).n_samples = st.n_samples := rfl
@[simp] lemma iterateHoltWinters_initialised (p : Params) (st : Sensor) :
    (iterateHoltWinters p st).initialised = st.initialised := rfl
@[simp] lemma iterateHoltWinters_fc_unixtime (p : Params) (st : Sensor) :
    (iterateHoltWinters p st).fc_unixtime = st.fc_unixtime := rfl
@[simp] lemma iterateHoltWinters_fc_temperature (p : Params) (st : Sensor) :
    (iterateHoltWinters p st).fc_temperature = st.fc_temperature := rfl
@[simp] lemma iterateHoltWinters_fc_residual (p : Params) (st : Sensor) :
    (iterateHoltWinters p st).fc_residual = st.fc_residual := rfl
@[simp] lemma iterateHoltWinters_residual_std (p : Params) (st : Sensor) :
    (iterateHoltWinters p st).residual_std = st.residual_std := rfl
@[simp] lemma iterateHoltWinters_lf_temperature (p : Params) (st : Sensor) :
    (iterateHoltWinters p st).lf_temperature = st.lf_temperature := rfl

@[simp] lemma initialiseHoltWinters_level (p : Params) (st : Sensor) :
    (initialiseHoltWinters p st).level
      = st.level ++ (List.range st.n_samples).map
          (fun (i : ℕ) => (initLinreg p st.n_samples st.temperature
              (st.season ++ initSeason p st.n_samples st.temperature)).1
            + (i : ℚ) * (initLinreg p st.n_samples st.temperature
              (st.season ++ initSeason p st.n_samples st.temperature)).2) := rfl
@[simp] lemma initialiseHoltWinters_trend (p : Params) (st : Sensor) :
    (initialiseHoltWinters p st).trend
      = st.trend ++ (List.range st.n_samples).map
          (fun _ => (initLinreg p st.n_samples st.temperature
              (st.season ++ initSeason p st.n_samples st.temperature)).2) := rfl
@[simp] lemma initialiseHoltWinters_season (p : Params) (st : Sensor) :
    (initialiseHoltWinters p st).season
      = st.season ++ initSeason p st.n_samples st.temperature := rfl
@[simp] lemma initialiseHoltWinters_temperature (p : Params) (st : Sensor) :
    (initialiseHoltWinters p st).temperature = st.temperature := rfl
@[simp] lemma initialiseHoltWinters_unixtime (p : Params) (st : Sensor) :
    (initialiseHoltWinters p st).unixtime = st.unixtime := rfl
@[simp] lemma initialiseHoltWinters_n_samples (p : Params) (st : Sensor) :
    (initialiseHoltWinters p st).n_samples = st.n_samples := rfl
@[simp] lemma initialiseHoltWinters_initialised (p : Params) (st : Sensor) :
    (initialiseHoltWinters p st).initialised = true := rfl
@[simp] lemma initialiseHoltWinters_fc_unixtime (p : Params) (st : Sensor) :
    (initialiseHoltWinters p st).fc_unixtime = st.fc_unixtime := rfl
@[simp] lemma initialiseHoltWinters_fc_temperature (p : Params) (st : Sensor) :
    (initialiseHoltWinters p st).fc_temperature = st.fc_temperature := rfl
@[simp] lemma initialiseHoltWinters_fc_residual (p : Params) (st : Sensor) :
    (initialiseHoltWinters p st).fc_residual = st.fc_residual := rfl

@[simp] lemma initSeason_length (p : Params) (n : ℕ) (temps : List ℚ) :
    (initSeason p n temps).length = n := by
  simp [initSeason]

lemma initialiseHoltWinters_level_length (p : Params) (st : Sensor) :
    (initialiseHoltWinters p st).level.length = st.level.length + st.n_samples := by
  rw [initialiseHoltWinters_level, List.length_append, List.length_map, List.length_range]

lemma initialiseHoltWinters_trend_length (p : Params) (st : Sensor) :
    (initialiseHoltWinters p st).trend.length = st.trend.length + st.n_samples := by
  rw [initialiseHoltWinters_trend, List.length_append, List.length_map, List.length_range]

lemma initialiseHoltWinters_season_length (p : Params) (st : Sensor) :
    (initialiseHoltWinters p st).season.length = st.season.length + st.n_samples := by
  rw [initialiseHoltWinters_season, List.length_append, initSeason_length]

@[simp] lemma appendSample_unixtime (st : Sensor) (ux : ℤ) (temp : ℚ) :
    (appendSample st ux temp).unixtime = st.unixtime ++ [ux] := rfl
@[simp] lemma appendSample_temperature (st : Sensor) (ux : ℤ) (temp : ℚ) :
    (appendSample st ux temp).temperature = st.temperature ++ [temp] := rfl
@[simp] lemma appendSample_n_samples (st : Sensor) (ux : ℤ) (temp : ℚ) :
    (appendSample st ux temp).n_samples = st.n_samples + 1 := rfl
@[simp] lemma appendSample_level (st : Sensor) (ux : ℤ) (temp : ℚ) :
    (appendSample st ux temp).level = st.level := rfl
@[simp] lemma appendSample_trend (st : Sensor) (ux : ℤ) (temp : ℚ) :
    (appendSample st ux temp).trend = st.trend := rfl
@[simp] lemma appendSample_season (st : Sensor) (ux : ℤ) (temp : ℚ) :
    (appendSample st ux temp).season = st.season := rfl
@[simp] lemma appendSample_initialised (st : Sensor) (ux : ℤ) (temp : ℚ) :
    (appendSample st ux temp).initialised = st.initialised := rfl
@[simp] lemma appendSample_fc_unixtime (st : Sensor) (ux : ℤ) (temp : ℚ) :
    (appendSample st ux temp).fc_unixtime = st.fc_unixtime := rfl
@[simp] lemma appendSample_fc_temperature (st : Sensor) (ux : ℤ) (temp : ℚ) :
    (appendSample st ux temp).fc_temperature = st.fc_temperature := rfl
@[simp] lemma appendSample_fc_residual (st : Sensor) (ux : ℤ) (temp : ℚ) :
    (appendSample st ux temp).fc_residual = st.fc_residual := rfl
@[simp] lemma appendSample_residual_std (st : Sensor) (ux : ℤ) (temp : ℚ) :
    (appendSample st ux temp).residual_std = st.residual_std := rfl

/-- Evaluation of `getD` on a mapped range below the bound. -/
lemma getD_map_range {α : Type} (f : ℕ → α) (n i : ℕ) (h : i < n) (d : α) :
    ((List.range n).map f).getD i d = f i := by
  rw [List.getD_eq_getElem?_getD, List.getElem?_map, List.getElem?_range h]
  rfl

/-! ## Structural invariant of the engine state -/

/-- The residual recorded during the cold-start phase is the placeholder `0`:
if after this step the forecast history has at most `n_step_ahead` entries,
the `else` branch of `sensor.py` lines 177–180 is taken. -/
lemma fcNewRes_eq_zero (p : Params) (st : Sensor)
    (h : st.fc_temperature.length + 1 ≤ p.n_step_ahead) : fcNewRes p st = 0 := by
  unfold fcNewRes
  rw [if_neg]
  simp only [List.length_append, List.length_cons, List.length_nil]
  omega

/-- Appending a residual preserves the cold-start-zero property. -/
lemma cold_modelForecast (sq : ℚ → ℚ) (p : Params) (st : Sensor)
    (hfc : st.fc_residual.length = st.fc_temperature.length)
    (hcold : ∀ i, i < p.n_step_ahead → i < st.fc_residual.length →
      st.fc_residual.getD i 0 = 0) :
    ∀ i, i < p.n_step_ahead → i < (modelForecast sq p st).fc_residual.length →
      (modelForecast sq p st).fc_residual.getD i 0 = 0 := by
  intro i hi hlen
  simp only [modelForecast_fc_residual, List.length_append, List.length_cons,
    List.length_nil] at hlen ⊢
  rcases lt_or_ge i st.fc_residual.length with hlt | hge
  · rw [List.getD_append _ _ _ _ hlt]
    exact hcold i hi hlt
  · have hieq : i = st.fc_residual.length := by omega
    rw [List.getD_append_right _ _ _ _ hge, hieq]
    simp only [Nat.sub_self, List.getD_cons_zero]
    exact fcNewRes_eq_zero p st (by omega)

lemma stInv_start (p : Params) : StInv p (Sensor.start p) := by
  refine ⟨rfl, rfl, rfl, ?_, ?_, ?_⟩
  · intro h; simp [Sensor.start] at h
  · intro _; exact ⟨rfl, rfl, rfl⟩
  · intro i _ h; simp [Sensor.start] at h

lemma stInv_step (sq : ℚ → ℚ) (p : Params) (st : Sensor) (ux : ℤ) (temp : ℚ)
    (h : StInv p st) : StInv p (newEventData sq p st ux temp) := by
  obtain ⟨ht, hu, hfc, hinit, hninit, hcold⟩ := h
  unfold newEventData
  split_ifs with h1 h2
  all_goals simp only [appendSample_n_samples] at h1
  · -- still accumulating: only the sample buffer grows
    refine ⟨?_, ?_, hfc, ?_, ?_, hcold⟩
    · simp [ht]
    · simp [hu]
    · intro hi
      exfalso
      have := (hinit hi).2.2.2
      omega
    · intro hi
      exact hninit hi
  · -- steady state: iterate + forecast
    simp only [appendSample_initialised] at h2
    have hlv := (hinit h2).1
    have htr := (hinit h2).2.1
    have hse := (hinit h2).2.2.1
    refine ⟨by simp [ht], by simp [hu], by simp [hfc], ?_, ?_, ?_⟩
    · intro _
      refine ⟨?_, ?_, ?_, ?_⟩ <;> simp [hlv, htr, hse, ht] <;> omega
    · intro hfalse
      simp [h2] at hfalse
    · exact cold_modelForecast sq p _ hfc hcold
  · -- initialization step
    have hb : st.initialised = false := by simpa using h2
    obtain ⟨hl0, ht0, hs0⟩ := hninit hb
    refine ⟨by simp [ht], by simp [hu], by simp [hfc], ?_, ?_, ?_⟩
    · intro _
      refine ⟨?_, ?_, ?_, ?_⟩
      · rw [modelForecast_level, modelForecast_n_samples,
          initialiseHoltWinters_level_length, initialiseHoltWinters_n_samples]
        simp [hl0]
      · rw [modelForecast_trend, modelForecast_n_samples,
          initialiseHoltWinters_trend_length, initialiseHoltWinters_n_samples]
        simp [ht0]
      · rw [modelForecast_season, modelForecast_n_samples,
          initialiseHoltWinters_season_length, initialiseHoltWinters_n_samples]
        simp [hs0]
      · rw [modelForecast_n_samples, initialiseHoltWinters_n_samples]
        simp only [appendSample_n_samples]
        omega
    · intro hfalse
      simp at hfalse
    · exact cold_modelForecast sq p _ (by simpa using hfc) (by simpa using hcold)

lemma stInv_run (sq : ℚ → ℚ) (p : Params) (samples : List (ℤ × ℚ)) :
    StInv p (runSamples sq p samples) := by
  unfold runSamples
  generalize hst : Sensor.start p = st0
  have h0 : StInv p st0 := hst ▸ stInv_start p
  clear hst
  induction samples generalizing st0 with
  | nil => exact h0
  | cons s rest ih =>
      simp only [List.foldl_cons]
      exact ih _ (stInv_step sq p st0 s.1 s.2 h0)

/-! ## Per-event growth of the sample buffer -/

lemma newEventData_temperature (sq : ℚ → ℚ) (p : Params) (st : Sensor) (ux : ℤ) (temp : ℚ) :
    (newEventData sq p st ux temp).temperature = st.temperature ++ [temp] := by
  unfold newEventData
  split_ifs <;> rfl

lemma newEventData_unixtime (sq : ℚ → ℚ) (p : Params) (st : Sensor) (ux : ℤ) (temp : ℚ) :
    (newEventData sq p st ux temp).unixtime = st.unixtime ++ [ux] := by
  unfold newEventData
  split_ifs <;> rfl

lemma newEventData_n_samples (sq : ℚ → ℚ) (p : Params) (st : Sensor) (ux : ℤ) (temp : ℚ) :
    (newEventData sq p st ux temp).n_samples = st.n_samples + 1 := by
  unfold newEventData
  split_ifs <;> rfl

/-! ## Claim C1 -/

/-- C1 (counterexample): submitting a sample whose unixtime (90) is strictly
less than the previously accepted sample's unixtime (100) does NOT leave the
per-device state unchanged — the sample buffer grows, because
`Sensor.new_event_data` performs no timestamp-order check at all. -/
theorem C1_counterexample :
    (newEventData id psmall (runSamples id psmall [(100, 20)]) 90 21).temperature
      ≠ (runSamples id psmall [(100, 20)]).temperature := by decide

/-- C1 (amended): the engine performs no out-of-order rejection: every
submitted sample — including one whose unixtime is strictly less than the
previous sample's, and one with an equal timestamp — is accepted and
recorded, appending exactly one entry to the per-device sample buffer. -/
theorem C1_every_sample_recorded (sq : ℚ → ℚ) (p : Params) (st : Sensor) (ux : ℤ) (temp : ℚ) :
    (newEventData sq p st ux temp).unixtime = st.unixtime ++ [ux] ∧
    (newEventData sq p st ux temp).temperature = st.temperature ++ [temp] ∧
    (newEventData sq p st ux temp).n_samples = st.n_samples + 1 :=
  ⟨newEventData_unixtime sq p st ux temp, newEventData_temperature sq p st ux temp,
    newEventData_n_samples sq p st ux temp⟩

/-! ## Claim C7 -/

/-- C7: after initialization the `level`, `trend` and `season` sequences all
have length equal to the number of samples processed, and every operation of
the engine only appends to the model and forecast sequences — the previous
contents survive as an unmodified prefix. -/
theorem C7_lengths_and_append_only (sq : ℚ → ℚ) (p : Params) (samples : List (ℤ × ℚ))
    (st : Sensor) (ux : ℤ) (temp : ℚ)
    (hinit : (runSamples sq p samples).initialised = true) :
    ((runSamples sq p samples).level.length = (runSamples sq p samples).temperature.length ∧
     (runSamples sq p samples).trend.length = (runSamples sq p samples).temperature.length ∧
     (runSamples sq p samples).season.length = (runSamples sq p samples).temperature.length ∧
     (runSamples sq p samples).temperature.length = (runSamples sq p samples).n_samples) ∧
    (∃ d1 d2 d3 d4 d5 d6 d7 d8,
      (newEventData sq p st ux temp).temperature = st.temperature ++ d1 ∧
      (newEventData sq p st ux temp).unixtime = st.unixtime ++ d2 ∧
      (newEventData sq p st ux temp).level = st.level ++ d3 ∧
      (newEventData sq p st ux temp).trend = st.trend ++ d4 ∧
      (newEventData sq p st ux temp).season = st.season ++ d5 ∧
      (newEventData sq p st ux temp).fc_unixtime = st.fc_unixtime ++ d6 ∧
      (newEventData sq p st ux temp).fc_temperature = st.fc_temperature ++ d7 ∧
      (newEventData sq p st ux temp).fc_residual = st.fc_residual ++ d8) := by
  constructor
  · obtain ⟨ht, hu, hfc, hin, hnin, hcold⟩ := stInv_run sq p samples
    obtain ⟨hl, htr, hs, _⟩ := hin hinit
    exact ⟨by omega, by omega, by omega, ht⟩
  · unfold newEventData
    split_ifs
    · exact ⟨[temp], [ux], [], [], [], [], [], [],
        rfl, rfl, (List.append_nil _).symm, (List.append_nil _).symm,
        (List.append_nil _).symm, (List.append_nil _).symm,
        (List.append_nil _).symm, (List.append_nil _).symm⟩
    · refine ⟨[temp], [ux],
        [iterLevelVal p (appendSample st ux temp)],
        [iterTrendVal p (appendSample st ux temp)],
        [iterSeasonVal p (appendSample st ux temp)],
        [fcNewTime p (iterateHoltWinters p (appendSample st ux temp))],
        [fcNewTemp p (iterateHoltWinters p (appendSample st ux temp))],
        [fcNewRes p (iterateHoltWinters p (appendSample st ux temp))],
        rfl, rfl, ?_, ?_, ?_, ?_, ?_, ?_⟩ <;> simp
    · refine ⟨[temp], [ux],
        (List.range (st.n_samples + 1)).map
          (fun (i : ℕ) => (initLinreg p (st.n_samples + 1) (st.temperature ++ [temp])
              (st.season ++ initSeason p (st.n_samples + 1) (st.temperature ++ [temp]))).1
            + (i : ℚ) * (initLinreg p (st.n_samples + 1) (st.temperature ++ [temp])
              (st.season ++ initSeason p (st.n_samples + 1) (st.temperature ++ [temp]))).2),
        (List.range (st.n_samples + 1)).map
          (fun _ => (initLinreg p (st.n_samples + 1) (st.temperature ++ [temp])
              (st.season ++ initSeason p (st.n_samples + 1) (st.temperature ++ [temp]))).2),
        initSeason p (st.n_samples + 1) (st.temperature ++ [temp]),
        [fcNewTime p (initialiseHoltWinters p (appendSample st ux temp))],
        [fcNewTemp p (initialiseHoltWinters p (appendSample st ux temp))],
        [fcNewRes p (initialiseHoltWinters p (appendSample st ux temp))],
        rfl, rfl, ?_, ?_, ?_, ?_, ?_, ?_⟩ <;> simp

/-! ## Claim C2 -/

lemma negIdx_concat (l : List ℚ) (x : ℚ) : negIdx (l ++ [x]) 1 = x := by
  unfold negIdx
  rw [List.length_append]
  simp only [List.length_cons, List.length_nil, Nat.zero_add, Nat.add_sub_cancel]
  rw [List.getD_append_right _ _ _ _ (Nat.le_refl _), Nat.sub_self]
  rfl

/-- C2: once initialised, each processed sample appends exactly one element
to each of `level`, `trend` and `season`, computed by the additive
Holt-Winters recurrence from the values stored before this step, with the
trend formula using the just-computed level; earlier elements survive as an
unmodified prefix.  Here `t = st.n_samples` is the 0-based index of the new
sample, so `st.*.getD (st.n_samples - 1)` is the entry `t-1` and
`st.season.getD (st.n_samples - p.season_length)` the entry
`t - season_length`. -/
theorem C2_recurrence_step (sq : ℚ → ℚ) (p : Params) (st : Sensor) (ux : ℤ) (temp : ℚ)
    (hinit : st.initialised = true)
    (hlv : st.level.length = st.n_samples)
    (htr : st.trend.length = st.n_samples)
    (hse : st.season.length = st.n_samples)
    (hthr : p.season_length * p.n_seasons_init ≤ st.n_samples + 1) :
    (newEventData sq p st ux temp).level
      = st.level ++ [p.alpha * (temp - st.season.getD (st.n_samples - p.season_length) 0)
          + (1 - p.alpha) * (st.level.getD (st.n_samples - 1) 0
              + st.trend.getD (st.n_samples - 1) 0)] ∧
    (newEventData sq p st ux temp).trend
      = st.trend ++ [p.beta * ((p.alpha * (temp - st.season.getD (st.n_samples - p.season_length) 0)
          + (1 - p.alpha) * (st.level.getD (st.n_samples - 1) 0
              + st.trend.getD (st.n_samples - 1) 0))
          - st.level.getD (st.n_samples - 1) 0)
          + (1 - p.beta) * st.trend.getD (st.n_samples - 1) 0] ∧
    (newEventData sq p st ux temp).season
      = st.season ++ [p.gamma * (temp - st.level.getD (st.n_samples - 1) 0
              - st.trend.getD (st.n_samples - 1) 0)
          + (1 - p.gamma) * st.season.getD (st.n_samples - p.season_length) 0] := by
  have hc1 : ¬((appendSample st ux temp).n_samples < p.season_length * p.n_seasons_init) := by
    simp only [appendSample_n_samples]
    omega
  have hc2 : (appendSample st ux temp).initialised = true := by
    simp only [appendSample_initialised]
    exact hinit
  have e1 : negIdx (appendSample st ux temp).temperature 1 = temp := by
    rw [appendSample_temperature]
    exact negIdx_concat _ _
  have e2 : negIdx (appendSample st ux temp).level 1
      = st.level.getD (st.n_samples - 1) 0 := by
    rw [appendSample_level]
    unfold negIdx
    rw [hlv]
  have e3 : negIdx (appendSample st ux temp).trend 1
      = st.trend.getD (st.n_samples - 1) 0 := by
    rw [appendSample_trend]
    unfold negIdx
    rw [htr]
  have e4 : negIdx (appendSample st ux temp).season p.season_length
      = st.season.getD (st.n_samples - p.season_length) 0 := by
    rw [appendSample_season]
    unfold negIdx
    rw [hse]
  unfold newEventData
  rw [if_neg hc1, if_pos hc2]
  refine ⟨?_, ?_, ?_⟩
  · rw [modelForecast_level, iterateHoltWinters_level, appendSample_level]
    rw [iterLevelVal, e1, e2, e3, e4]
  · rw [modelForecast_trend, iterateHoltWinters_trend, appendSample_trend]
    rw [iterTrendVal, iterLevelVal, e1, e2, e3, e4]
  · rw [modelForecast_season, iterateHoltWinters_season, appendSample_season]
    rw [iterSeasonVal, e1, e2, e3, e4]

/-- C2 witness: the recurrence theorem instantiated on the concrete
initialized state `stW` with a fifth sample `(40, 23)`. -/
theorem C2_recurrence_step_witness :
    (newEventData id psmall stW 40 23).level
      = stW.level ++ [psmall.alpha * (23 - stW.season.getD (stW.n_samples - psmall.season_length) 0)
          + (1 - psmall.alpha) * (stW.level.getD (stW.n_samples - 1) 0
              + stW.trend.getD (stW.n_samples - 1) 0)] ∧
    (newEventData id psmall stW 40 23).trend
      = stW.trend ++ [psmall.beta * ((psmall.alpha * (23 - stW.season.getD (stW.n_samples - psmall.season_length) 0)
          + (1 - psmall.alpha) * (stW.level.getD (stW.n_samples - 1) 0
              + stW.trend.getD (stW.n_samples - 1) 0))
          - stW.level.getD (stW.n_samples - 1) 0)
          + (1 - psmall.beta) * stW.trend.getD (stW.n_samples - 1) 0] ∧
    (newEventData id psmall stW 40 23).season
      = stW.season ++ [psmall.gamma * (23 - stW.level.getD (stW.n_samples - 1) 0
              - stW.trend.getD (stW.n_samples - 1) 0)
          + (1 - psmall.gamma) * stW.season.getD (stW.n_samples - psmall.season_length) 0] :=
  C2_recurrence_step id psmall stW 40 23 (by decide) (by decide) (by decide)
    (by decide) (by decide)

/-- C7 witness: the length and append-only law instantiated on the concrete
run `samples4` and the concrete state `stW` receiving `(40, 23)`. -/
theorem C7_witness :
    ((runSamples id psmall samples4).level.length
        = (runSamples id psmall samples4).temperature.length ∧
     (runSamples id psmall samples4).trend.length
        = (runSamples id psmall samples4).temperature.length ∧
     (runSamples id psmall samples4).season.length
        = (runSamples id psmall samples4).temperature.length ∧
     (runSamples id psmall samples4).temperature.length
        = (runSamples id psmall samples4).n_samples) ∧
    (∃ d1 d2 d3 d4 d5 d6 d7 d8,
      (newEventData id psmall stW 40 23).temperature = stW.temperature ++ d1 ∧
      (newEventData id psmall stW 40 23).unixtime = stW.unixtime ++ d2 ∧
      (newEventData id psmall stW 40 23).level = stW.level ++ d3 ∧
      (newEventData id psmall stW 40 23).trend = stW.trend ++ d4 ∧
      (newEventData id psmall stW 40 23).season = stW.season ++ d5 ∧
      (newEventData id psmall stW 40 23).fc_unixtime = stW.fc_unixtime ++ d6 ∧
      (newEventData id psmall stW 40 23).fc_temperature = stW.fc_temperature ++ d7 ∧
      (newEventData id psmall stW 40 23).fc_residual = stW.fc_residual ++ d8) :=
  C7_lengths_and_append_only id psmall samples4 stW 40 23 (by decide)

/-! ## Claim C6 -/

/-- C6: at each forecasting step, after the current forecast entry is
recorded: when the forecast history holds strictly more than `n_step_ahead`
entries the appended residual is the absolute difference between the current
temperature and the forecast value recorded `n_step_ahead` steps back;
otherwise it is exactly `0` — so on any run from a fresh state the first
`n_step_ahead` residuals are exactly `0`. -/
theorem C6_residual_policy (sq : ℚ → ℚ) (p : Params) (st : Sensor)
    (samples : List (ℤ × ℚ)) (i : ℕ)
    (hnsa : 1 ≤ p.n_step_ahead)
    (hi : i < p.n_step_ahead)
    (hlen : i < (runSamples sq p samples).fc_residual.length) :
    ((p.n_step_ahead < st.fc_temperature.length + 1 →
        (modelForecast sq p st).fc_residual
          = st.fc_residual ++ [|negIdx st.temperature 1
              - st.fc_temperature.getD (st.fc_temperature.length - p.n_step_ahead) 0|]) ∧
     (st.fc_temperature.length + 1 ≤ p.n_step_ahead →
        (modelForecast sq p st).fc_residual = st.fc_residual ++ [0])) ∧
    (runSamples sq p samples).fc_residual.getD i 0 = 0 := by
  refine ⟨⟨?_, ?_⟩, ?_⟩
  · intro hgt
    rw [modelForecast_fc_residual]
    have hval : fcNewRes p st
        = |negIdx st.temperature 1
            - st.fc_temperature.getD (st.fc_temperature.length - p.n_step_ahead) 0| := by
      unfold fcNewRes
      rw [if_pos (by simp only [List.length_append, List.length_cons, List.length_nil]; omega)]
      have hidx : (st.fc_temperature ++ [fcNewTemp p st]).length - (p.n_step_ahead + 1)
          = st.fc_temperature.length - p.n_step_ahead := by
        simp only [List.length_append, List.length_cons, List.length_nil]
        omega
      rw [hidx, List.getD_append _ _ _ _ (by omega)]
    rw [hval]
  · intro hle
    rw [modelForecast_fc_residual, fcNewRes_eq_zero p st hle]
  · obtain ⟨_, _, _, _, _, hcold⟩ := stInv_run sq p samples
    exact hcold i hi hlen

/-- C6 witness: the residual policy instantiated on the concrete state `stW`
and the concrete run `samples4` at residual index `0`. -/
theorem C6_residual_policy_witness :
    ((psmall.n_step_ahead < stW.fc_temperature.length + 1 →
        (modelForecast id psmall stW).fc_residual
          = stW.fc_residual ++ [|negIdx stW.temperature 1
              - stW.fc_temperature.getD (stW.fc_temperature.length - psmall.n_step_ahead) 0|]) ∧
     (stW.fc_temperature.length + 1 ≤ psmall.n_step_ahead →
        (modelForecast id psmall stW).fc_residual = stW.fc_residual ++ [0])) ∧
    (runSamples id psmall samples4).fc_residual.getD 0 0 = 0 :=
  C6_residual_policy id psmall stW samples4 0 (by decide) (by decide) (by decide)

/-! ## Claim C8 -/

/-- C8: after every residual append — every event at or past the
initialization threshold, the initialization event included — the stored
`residual_std` equals `sq` applied to the population variance of the
trailing window of the residual history, recomputed from scratch, and that
window consists of the most recent `min(len(residuals), n_forecast)`
entries. -/
theorem C8_residual_std (sq : ℚ → ℚ) (p : Params) (st : Sensor) (ux : ℤ) (temp : ℚ)
    (hthr : p.season_length * p.n_seasons_init ≤ st.n_samples + 1) :
    (newEventData sq p st ux temp).residual_std
      = sq (popVar ((newEventData sq p st ux temp).fc_residual.drop
          ((newEventData sq p st ux temp).fc_residual.length - p.n_forecast))) ∧
    ((newEventData sq p st ux temp).fc_residual.drop
        ((newEventData sq p st ux temp).fc_residual.length - p.n_forecast)).length
      = min (newEventData sq p st ux temp).fc_residual.length p.n_forecast := by
  have hc1 : ¬((appendSample st ux temp).n_samples < p.season_length * p.n_seasons_init) := by
    simp only [appendSample_n_samples]
    omega
  unfold newEventData
  rw [if_neg hc1]
  split_ifs with h2
  · exact ⟨rfl, by rw [List.length_drop]; omega⟩
  · exact ⟨rfl, by rw [List.length_drop]; omega⟩

/-- C8 witness: instantiated on the concrete initialized state `stW`
receiving the sample `(40, 23)`. -/
theorem C8_residual_std_witness :
    (newEventData id psmall stW 40 23).residual_std
      = id (popVar ((newEventData id psmall stW 40 23).fc_residual.drop
          ((newEventData id psmall stW 40 23).fc_residual.length - psmall.n_forecast))) ∧
    ((newEventData id psmall stW 40 23).fc_residual.drop
        ((newEventData id psmall stW 40 23).fc_residual.length - psmall.n_forecast)).length
      = min (newEventData id psmall stW 40 23).fc_residual.length psmall.n_forecast :=
  C8_residual_std id psmall stW 40 23 (by decide)

/-! ## Claim C10 -/

/-- C10: the entry appended to the persistent forecast history — both its
timestamp and its value — is the local multi-horizon forecast entry at index
`min(n_step_ahead - 1, n_forecast - 1)`. -/
theorem C10_recorded_entry (sq : ℚ → ℚ) (p : Params) (st : Sensor)
    (hnf : 1 ≤ p.n_forecast) :
    (modelForecast sq p st).fc_temperature
      = st.fc_temperature ++ [(modelForecast sq p st).lf_temperature.getD
          (min (p.n_step_ahead - 1) (p.n_forecast - 1)) 0] ∧
    (modelForecast sq p st).fc_unixtime
      = st.fc_unixtime ++ [(modelForecast sq p st).lf_unixtime.getD
          (min (p.n_step_ahead - 1) (p.n_forecast - 1)) none] :=
  ⟨rfl, rfl⟩

/-- C10 witness: instantiated on the concrete initialized state `stW`. -/
theorem C10_recorded_entry_witness :
    (modelForecast id psmall stW).fc_temperature
      = stW.fc_temperature ++ [(modelForecast id psmall stW).lf_temperature.getD
          (min (psmall.n_step_ahead - 1) (psmall.n_forecast - 1)) 0] ∧
    (modelForecast id psmall stW).fc_unixtime
      = stW.fc_unixtime ++ [(modelForecast id psmall stW).lf_unixtime.getD
          (min (psmall.n_step_ahead - 1) (psmall.n_forecast - 1)) none] :=
  C10_recorded_entry id psmall stW (by decide)

/-! ## Claim C4 -/

lemma diffs_length (st : Sensor) :
    (List.zipWith (fun (a : ℤ) b => a - b) ((tax24 st).drop 1) (tax24 st)).length
      = (tax24 st).length - 1 := by
  rw [List.length_zipWith, List.length_drop]
  omega

/-- C4: after every forecasting step, the local multi-horizon forecast at
each horizon `t < n_forecast` has point value
`level[last] + t*trend[last] + season[(t-1) mod season_length` positions
from the end of the previous cycle`]` — at `t = 0` the most recent season
element — and, whenever at least 2 samples fall in the trailing 24 hours of
event time, timestamp `last_unixtime + (t+1)*step_length` with `step_length`
the mean inter-sample gap over those samples. -/
theorem C4_forecast_values (sq : ℚ → ℚ) (p : Params) (st : Sensor) (t : ℕ)
    (hsl : 1 ≤ p.season_length)
    (hlen : p.season_length ≤ st.season.length)
    (ht : t < p.n_forecast) :
    (modelForecast sq p st).lf_temperature.getD t 0
      = st.level.getD (st.level.length - 1) 0
        + (t : ℚ) * st.trend.getD (st.trend.length - 1) 0
        + st.season.getD (st.season.length - p.season_length
            + (t + p.season_length - 1) % p.season_length) 0 ∧
    (2 ≤ (tax24 st).length →
      (modelForecast sq p st).lf_unixtime.getD t none
        = some ((lastUx st : ℚ) + ((t : ℚ) + 1)
            * (((List.zipWith (fun (a : ℤ) b => a - b) ((tax24 st).drop 1) (tax24 st)).sum : ℚ)
              / ((List.zipWith (fun (a : ℤ) b => a - b)
                  ((tax24 st).drop 1) (tax24 st)).length : ℚ)))) := by
  constructor
  · rw [modelForecast_lf_temperature, getD_map_range _ _ _ ht]
    unfold lfTempFun negIdx
    have hm : (t + p.season_length - 1) % p.season_length < p.season_length :=
      Nat.mod_lt _ (by omega)
    have hidx : st.season.length - (p.season_length - (t + p.season_length - 1) % p.season_length)
        = st.season.length - p.season_length + (t + p.season_length - 1) % p.season_length := by
      omega
    rw [hidx]
  · intro h2
    rw [modelForecast_lf_unixtime, getD_map_range _ _ _ ht]
    unfold lfTimeFun uxStep
    rw [if_neg (by rw [diffs_length]; omega)]
    rfl

/-- C4 witness: the forecast formulas instantiated on the concrete
initialized state `stW` at horizon `t = 0`. -/
theorem C4_forecast_values_witness :
    (modelForecast id psmall stW).lf_temperature.getD 0 0
      = stW.level.getD (stW.level.length - 1) 0
        + (0 : ℚ) * stW.trend.getD (stW.trend.length - 1) 0
        + stW.season.getD (stW.season.length - psmall.season_length
            + (0 + psmall.season_length - 1) % psmall.season_length) 0 ∧
    (2 ≤ (tax24 stW).length →
      (modelForecast id psmall stW).lf_unixtime.getD 0 none
        = some ((lastUx stW : ℚ) + ((0 : ℚ) + 1)
            * (((List.zipWith (fun (a : ℤ) b => a - b) ((tax24 stW).drop 1) (tax24 stW)).sum : ℚ)
              / ((List.zipWith (fun (a : ℤ) b => a - b)
                  ((tax24 stW).drop 1) (tax24 stW)).length : ℚ)))) :=
  C4_forecast_values id psmall stW 0 (by decide) (by decide) (by decide)

/-! ## Claim C9 -/

/-- C9 (counterexample): on a concrete run whose final sample arrives more
than 24 hours after all earlier ones (so fewer than 2 samples fall in the
trailing 24-hour window), the engine does not signal any error condition and
still records a forecast entry: the forecast history has grown to one entry,
whose timestamp is the undefined (`NaN`, modelled `none`) value. -/
theorem C9_counterexample :
    (tax24 stG).length < 2 ∧ stG.fc_temperature.length = 1 ∧ stG.fc_unixtime = [none] := by
  decide

/-- C9 (amended): whenever fewer than 2 samples fall in the trailing 24
hours of event time, the mean step length is undefined (`np.mean` of an
empty array, `NaN`, modelled `none`); the engine does not raise any error —
it still appends a forecast-history entry whose timestamp is undefined while
the forecast temperature history grows by one well-defined value. -/
theorem C9_undefined_step (sq : ℚ → ℚ) (p : Params) (st : Sensor)
    (h : (tax24 st).length < 2) :
    uxStep st = none ∧
    (modelForecast sq p st).fc_unixtime = st.fc_unixtime ++ [none] ∧
    (modelForecast sq p st).fc_temperature.length = st.fc_temperature.length + 1 := by
  have hstep : uxStep st = none := by
    unfold uxStep
    rw [if_pos (by rw [diffs_length]; omega)]
  refine ⟨hstep, ?_, ?_⟩
  · rw [modelForecast_fc_unixtime]
    have : fcNewTime p st = none := by
      unfold fcNewTime
      rcases Nat.lt_or_ge (fcIdx p) p.n_forecast with hlt | hge
      · rw [getD_map_range _ _ _ hlt]
        unfold lfTimeFun
        rw [hstep]
        rfl
      · rw [List.getD_eq_default]
        rw [List.length_map, List.length_range]
        omega
    rw [this]
  · rw [modelForecast_fc_temperature, List.length_append]
    rfl

/-- C9 amended-claim witness: instantiated on the concrete gap state `stG`. -/
theorem C9_undefined_step_witness :
    uxStep stG = none ∧
    (modelForecast id psmall stG).fc_unixtime = stG.fc_unixtime ++ [none] ∧
    (modelForecast id psmall stG).fc_temperature.length = stG.fc_temperature.length + 1 :=
  C9_undefined_step id psmall stG (by decide)

/-! ## Claim C3 -/

lemma initAvs_length (p : Params) (n : ℕ) (temps : List ℚ) :
    (initAvs p n temps).length = p.season_length := by
  simp [initAvs]

/-- C3: when the sample count reaches `season_length * n_seasons_init`,
initialization sets `season[i]` to the per-phase average (over exactly
`n_seasons_init` repetitions) of the detrended residual
(temperature minus moving average) at phase `i mod season_length`, then
fits intercept and slope by the closed-form least-squares regression of the
seasonally adjusted series against the sample index, setting
`level[i] = a + b*i` and `trend[i] = b` — the same `b` at every historical
index — and marks the model initialised. -/
theorem C3_initialization (p : Params) (st : Sensor)
    (hn : st.n_samples = p.season_length * p.n_seasons_init)
    (hsl : 1 ≤ p.season_length)
    (hlv : st.level = []) (htr : st.trend = []) (hse : st.season = []) :
    (initialiseHoltWinters p st).initialised = true ∧
    (∀ i, i < st.n_samples →
      (initialiseHoltWinters p st).season.getD i 0
        = listMean ((List.range p.n_seasons_init).map
            (fun j => st.temperature.getD (i % p.season_length + j * p.season_length) 0
              - maSlice p.season_length st.n_samples st.temperature
                  (i % p.season_length + j * p.season_length)))) ∧
    (∀ i, i < st.n_samples →
      (initialiseHoltWinters p st).level.getD i 0
        = (algebraic_linreg ((List.range st.n_samples).map (fun (k : ℕ) => (k : ℚ)))
            ((List.range st.n_samples).map
              (fun k => st.temperature.getD k 0
                - (initialiseHoltWinters p st).season.getD k 0))).1
          + (i : ℚ)
            * (algebraic_linreg ((List.range st.n_samples).map (fun (k : ℕ) => (k : ℚ)))
                ((List.range st.n_samples).map
                  (fun k => st.temperature.getD k 0
                    - (initialiseHoltWinters p st).season.getD k 0))).2) ∧
    (∀ i, i < st.n_samples →
      (initialiseHoltWinters p st).trend.getD i 0
        = (algebraic_linreg ((List.range st.n_samples).map (fun (k : ℕ) => (k : ℚ)))
            ((List.range st.n_samples).map
              (fun k => st.temperature.getD k 0
                - (initialiseHoltWinters p st).season.getD k 0))).2) := by
  refine ⟨rfl, ?_, ?_, ?_⟩
  · intro i hi
    rw [initialiseHoltWinters_season, hse, List.nil_append]
    unfold initSeason
    rw [getD_map_range _ _ _ hi, initAvs_length]
    have him : i % p.season_length < p.season_length := Nat.mod_lt _ (by omega)
    unfold initAvs
    rw [getD_map_range _ _ _ him]
    rfl
  · intro i hi
    simp only [initialiseHoltWinters_season]
    rw [initialiseHoltWinters_level, hlv, List.nil_append, getD_map_range _ _ _ hi]
    rfl
  · intro i hi
    simp only [initialiseHoltWinters_season]
    rw [initialiseHoltWinters_trend, htr, List.nil_append, getD_map_range _ _ _ hi]
    rfl

/-- C3 witness: initialization instantiated on the concrete pre-init state
`stPre`, which holds exactly `season_length * n_seasons_init = 4` samples. -/
theorem C3_initialization_witness :
    (initialiseHoltWinters psmall stPre).initialised = true ∧
    (∀ i, i < stPre.n_samples →
      (initialiseHoltWinters psmall stPre).season.getD i 0
        = listMean ((List.range psmall.n_seasons_init).map
            (fun j => stPre.temperature.getD (i % psmall.season_length + j * psmall.season_length) 0
              - maSlice psmall.season_length stPre.n_samples stPre.temperature
                  (i % psmall.season_length + j * psmall.season_length)))) ∧
    (∀ i, i < stPre.n_samples →
      (initialiseHoltWinters psmall stPre).level.getD i 0
        = (algebraic_linreg ((List.range stPre.n_samples).map (fun (k : ℕ) => (k : ℚ)))
            ((List.range stPre.n_samples).map
              (fun k => stPre.temperature.getD k 0
                - (initialiseHoltWinters psmall stPre).season.getD k 0))).1
          + (i : ℚ)
            * (algebraic_linreg ((List.range stPre.n_samples).map (fun (k : ℕ) => (k : ℚ)))
                ((List.range stPre.n_samples).map
                  (fun k => stPre.temperature.getD k 0
                    - (initialiseHoltWinters psmall stPre).season.getD k 0))).2) ∧
    (∀ i, i < stPre.n_samples →
      (initialiseHoltWinters psmall stPre).trend.getD i 0
        = (algebraic_linreg ((List.range stPre.n_samples).map (fun (k : ℕ) => (k : ℚ)))
            ((List.range stPre.n_samples).map
              (fun k => stPre.temperature.getD k 0
                - (initialiseHoltWinters psmall stPre).season.getD k 0))).2) :=
  C3_initialization psmall stPre (by decide) (by decide) (by decide) (by decide) (by decide)

/-! ## Claim C5 -/

lemma drop_take_sum (l : List ℚ) : ∀ (k a : ℕ), a + k ≤ l.length →
    ((l.drop a).take k).sum = ∑ j in Finset.range k, l.getD (a + j) 0 := by
  intro k
  induction k with
  | zero => intro a _; simp
  | succ k ih =>
      intro a ha
      have halt : a < l.length := by omega
      rw [List.drop_eq_getElem_cons halt, List.take_succ_cons, List.sum_cons,
        ih (a + 1) (by omega), Finset.sum_range_succ', add_comm]
      congr 1
      · exact Finset.sum_congr rfl (fun j _ => by congr 1; omega)
      · rw [Nat.add_zero]
        exact (List.getD_eq_getElem l 0 halt).symm

lemma drop_take_length (l : List ℚ) (k a : ℕ) (h : a + k ≤ l.length) :
    ((l.drop a).take k).length = k := by
  rw [List.length_take, List.length_drop]
  omega

lemma rat_window_iff (i j sl : ℕ) :
    (((i : ℚ) - 3 * (sl : ℚ) / 2 ≤ (j : ℚ)) ∧ ((j : ℚ) ≤ (i : ℚ) + 3 * (sl : ℚ) / 2))
      ↔ (2 * i ≤ 2 * j + 3 * sl ∧ 2 * j ≤ 2 * i + 3 * sl) := by
  constructor
  · rintro ⟨h1, h2⟩
    constructor
    · have h : (2 * i : ℚ) ≤ 2 * j + 3 * sl := by linarith
      exact_mod_cast h
    · have h : (2 * j : ℚ) ≤ 2 * i + 3 * sl := by linarith
      exact_mod_cast h
  · rintro ⟨h1, h2⟩
    have h1' : (2 * i : ℚ) ≤ 2 * j + 3 * sl := by exact_mod_cast h1
    have h2' : (2 * j : ℚ) ≤ 2 * i + 3 * sl := by exact_mod_cast h2
    constructor <;> linarith

/-- C5: during initialization, the moving average at each historical index
`i` equals the mean of the temperatures whose indices lie in the real
interval `[i - 1.5*season_length, i + 1.5*season_length]` intersected with
the valid index range `[0, n)` — the integer truncation performed by the
code selects exactly the integer points of that interval. -/
theorem C5_moving_average (sl n : ℕ) (temps : List ℚ) (i : ℕ)
    (hn : n = temps.length) (hi : i < n) :
    maSlice sl n temps i
      = (∑ j in (Finset.range n).filter
            (fun (j : ℕ) => ((i : ℚ) - 3 * (sl : ℚ) / 2 ≤ (j : ℚ))
              ∧ ((j : ℚ) ≤ (i : ℚ) + 3 * (sl : ℚ) / 2)),
          temps.getD j 0)
        / (((Finset.range n).filter
            (fun (j : ℕ) => ((i : ℚ) - 3 * (sl : ℚ) / 2 ≤ (j : ℚ))
              ∧ ((j : ℚ) ≤ (i : ℚ) + 3 * (sl : ℚ) / 2))).card : ℚ) := by
  subst hn
  have hflt : (Finset.range temps.length).filter
        (fun (j : ℕ) => ((i : ℚ) - 3 * (sl : ℚ) / 2 ≤ (j : ℚ))
          ∧ ((j : ℚ) ≤ (i : ℚ) + 3 * (sl : ℚ) / 2))
      = Finset.Ico (i - 3 * sl / 2) (min temps.length (i + 3 * sl / 2 + 1)) := by
    ext j
    simp only [Finset.mem_filter, Finset.mem_range, Finset.mem_Ico]
    rw [rat_window_iff]
    omega
  rw [hflt]
  simp only [maSlice]
  have hle : (i - 3 * sl / 2) + (min temps.length (i + 3 * sl / 2 + 1) - (i - 3 * sl / 2))
      ≤ temps.length := by omega
  rw [listMean, drop_take_sum temps _ _ hle, drop_take_length temps _ _ hle,
    Finset.sum_Ico_eq_sum_range, Nat.card_Ico]

/-- C5 witness: the moving-average window law instantiated at
`season_length = 2`, the four concrete temperatures of `samples4`, and
index `i = 0`. -/
theorem C5_moving_average_witness :
    maSlice 2 4 [20, 21, 20, 22] 0
      = (∑ j in (Finset.range 4).filter
            (fun (j : ℕ) => (((0 : ℕ) : ℚ) - 3 * ((2 : ℕ) : ℚ) / 2 ≤ (j : ℚ))
              ∧ ((j : ℚ) ≤ ((0 : ℕ) : ℚ) + 3 * ((2 : ℕ) : ℚ) / 2)),
          List.getD [20, 21, 20, 22] j 0)
        / (((Finset.range 4).filter
            (fun (j : ℕ) => (((0 : ℕ) : ℚ) - 3 * ((2 : ℕ) : ℚ) / 2 ≤ (j : ℚ))
              ∧ ((j : ℚ) ≤ ((0 : ℕ) : ℚ) + 3 * ((2 : ℕ) : ℚ) / 2))).card : ℚ) :=
  C5_moving_average 2 4 [20, 21, 20, 22] 0 (by decide) (by decide)
